import Mathlib

/-
  Verification development for the RandomGenerator repository
  (src/RNGClass.h): a template class `RNGClass<T>` wrapping the Windows
  BCrypt randomness provider, plus two `SimpleRandom` convenience
  functions.

  The embedding below follows the source text of RNGClass.h.  Machine
  integers are modelled as `Nat`/`Int` with explicit reduction modulo
  2^width where the source type can wrap (`pending_count` is an
  `unsigned long long`; `int` arithmetic in `SimpleRandom` wraps modulo
  2^32 in two's complement).  C++ exceptions are modelled with `Except`;
  a failed `assert` is modelled as the rejecting outcome
  `RNGError.assertFail`.  Calls made to the external BCrypt provider are
  recorded as an explicit event list so that theorems can count them and
  inspect their arguments.
-/

namespace RNGSpec

/-- 2^64, the modulus of `unsigned long long pending_count` (line 341). -/
def W : Nat := 2 ^ 64

/-- The two error outcomes of RNGClass (see spec section 7):
`shutdown` is the `std::exception` thrown by `IncrementCount` (line 312)
once destruction is scheduled; `assertFail` is the failed
`assert(floor < roof)` of the ranged entry points (lines 190, 252, 279). -/
inductive RNGError where
  | shutdown
  | assertFail
deriving DecidableEq

/-- The data members of `RNGClass<T>` that the claims are about
(lines 336-343).  The opaque `algorithm_handle` is not stored as data;
the open/close traffic on it is recorded in the event lists returned by
the operations. -/
structure RNG where
  initialized : Bool
  dying : Bool
  pending_count : Nat
deriving DecidableEq

/-- `RNGClass<T>::IncrementCount` (lines 298-320): throw if `dying`,
otherwise increment `pending_count` (an `unsigned long long`, so modulo
2^64) under `count_muter`. -/
def IncrementCount (s : RNG) : Except RNGError RNG :=
  if s.dying then Except.error RNGError.shutdown
  else Except.ok { s with pending_count := (s.pending_count + 1) % W }

/-- `RNGClass<T>::DecrementCount` (lines 324-334): `pending_count -= 1`
under `count_muter`; unsigned arithmetic, so 0 wraps to 2^64 - 1. -/
def DecrementCount (s : RNG) : RNG :=
  { s with pending_count := (s.pending_count + (W - 1)) % W }

/-- The argument expression that the source passes to
`BCryptCloseAlgorithmProvider`: the destructor (line 153) passes the
handle itself, `this->algorithm_handle`; `Initialize` (line 217) passes
`&this->algorithm_handle`, the address of the member. -/
inductive CloseArg where
  | handleValue
  | handleAddress
deriving DecidableEq

/-- Observable events of `RNGClass<T>::Initialize`: flag writes and the
calls made to the BCrypt provider, in source order. -/
inductive InitEvent where
  | setUninitialized
  | closeCall (arg : CloseArg)
  | openCall
  | setInitialized
deriving DecidableEq

/-- `RNGClass<T>::Initialize` (lines 208-225).  If already initialized:
with `reinit` (the source parameter is named `reinitialize`) set
`initialized = false` and call `BCryptCloseAlgorithmProvider` with
`&this->algorithm_handle` (line 217 -- the address of the member, not the
handle value the destructor passes at line 153), then fall through to
open; without `reinit`, return doing nothing.  If not initialized: call
`BCryptOpenAlgorithmProvider` and set `initialized = true`.  The status
returned by the provider is ignored by the source. -/
def Initialize (reinit : Bool) (s : RNG) : RNG × List InitEvent :=
  if s.initialized then
    if reinit then
      ({ s with initialized := true },
        [InitEvent.setUninitialized, InitEvent.closeCall CloseArg.handleAddress,
         InitEvent.openCall, InitEvent.setInitialized])
    else (s, [])
  else
    ({ s with initialized := true }, [InitEvent.openCall, InitEvent.setInitialized])

/-- The contents of the local buffer `number` after the
`BCryptGenRandom(handle, &number, sizeof(number), NULL)` call of
line 172.  `fill = some v` models a successful fill of the
`w`-bit buffer with random bytes `v`; `fill = none` models a provider
failure, which leaves the buffer holding its uninitialized stack
contents `junk`.  The source discards the returned `NTSTATUS`, so the
buffer contents are used in either case. -/
def fillVal (w junk : Nat) (fill : Option Nat) : Nat :=
  match fill with
  | some v => v % 2 ^ w
  | none => junk % 2 ^ w

/-- `RNGClass<T>::operator()()` (lines 161-179), the raw generator
(`generate()` in the spec): `IncrementCount` (rethrowing), lazy
`Initialize` if needed, `BCryptGenRandom` with its status discarded,
`DecrementCount`, return the buffer.  `w` is the bit width of
`result_type`, `junk` the uninitialized contents of the local `number`,
`fill` the provider's behaviour on this call. -/
def rawGen (w junk : Nat) (fill : Option Nat) (s : RNG) :
    Except RNGError (Nat × RNG × List InitEvent) :=
  match IncrementCount s with
  | Except.error e => Except.error e
  | Except.ok s1 =>
    let p := if s1.initialized then (s1, ([] : List InitEvent)) else Initialize false s1
    Except.ok (fillVal w junk fill, DecrementCount p.1, p.2)

/-- Modelled from the spec: `std::uniform_int_distribution` over an
unsigned range is an external collaborator (spec section 6) whose
contract is to turn a raw uniform draw into a value of the inclusive
range `[lo, hi]`; modelled as `lo + raw % (hi - lo + 1)`. -/
def distNat (lo hi raw : Nat) : Nat :=
  lo + raw % (hi - lo + 1)

/-- Modelled from the spec: `std::uniform_int_distribution` over a
possibly signed integral `cast_type`, same inclusive-range contract. -/
def distInt (lo hi : Int) (raw : Nat) : Int :=
  lo + (raw : Int) % (hi - lo + 1)

/-- `RNGClass<T>::operator()(result_type floor, result_type roof)`
(lines 184-204): `assert(floor < roof)` (modelled as the rejecting
outcome), `IncrementCount` (rethrowing), then
`std::uniform_int_distribution<result_type>(floor, roof)(*this)` -- the
distribution invokes the raw `operator()()` on `*this` -- then
`DecrementCount` and return.  Note the source places no guard around the
distribution call: if the inner `operator()()` throws, the error
propagates and the outer `DecrementCount` (line 200) is skipped. -/
def opRange (w junk : Nat) (fill : Option Nat) (lo hi : Nat) (s : RNG) :
    Except RNGError (Nat × RNG × List InitEvent) :=
  if lo < hi then
    match IncrementCount s with
    | Except.error e => Except.error e
    | Except.ok s1 =>
      match rawGen w junk fill s1 with
      | Except.error e => Except.error e
      | Except.ok (raw, s2, evs) =>
        Except.ok (distNat lo hi raw, DecrementCount s2, evs)
  else Except.error RNGError.assertFail

/-- `RNGClass<T>::CustomRand<cast_type>` (lines 243-266): same shape as
the ranged `operator()`, with `cast_type` an arbitrary integral type
modelled as `Int`. -/
def CustomRand (w junk : Nat) (fill : Option Nat) (lo hi : Int) (s : RNG) :
    Except RNGError (Int × RNG × List InitEvent) :=
  if lo < hi then
    match IncrementCount s with
    | Except.error e => Except.error e
    | Except.ok s1 =>
      match rawGen w junk fill s1 with
      | Except.error e => Except.error e
      | Except.ok (raw, s2, evs) =>
        Except.ok (distInt lo hi raw, DecrementCount s2, evs)
  else Except.error RNGError.assertFail

/-- `CustomRand` with both arguments omitted (line 243): the defaults
are `std::numeric_limits<cast_type>::min()` and `::max()`, i.e. the full
domain `[uMin, uMax]` of the cast type. -/
def CustomRandDefault (uMin uMax : Int) (w junk : Nat) (fill : Option Nat) (s : RNG) :
    Except RNGError (Int × RNG × List InitEvent) :=
  CustomRand w junk fill uMin uMax s

/-- The C++ conversion `(int)v` for a 32-bit unsigned `v`:
two's-complement reinterpretation. -/
def toSigned32 (v : Nat) : Int :=
  if v < 2 ^ 31 then (v : Int) else (v : Int) - 2 ^ 32

/-- `std::abs` on `int`, with the negation taken in 32-bit
two's-complement arithmetic: negating `INT_MIN` overflows (undefined
behaviour in C++; the wraparound evaluation performed by real targets
yields `INT_MIN` back). -/
def absInt32 (x : Int) : Int :=
  if x < 0 then ((-x) + 2 ^ 31) % 2 ^ 32 - 2 ^ 31 else x

/-- `SimpleRandom()` (lines 350-353): `std::abs((int)rng())` on a static
`RNGClass<unsigned int>` instance. -/
def SimpleRandom1 (junk : Nat) (fill : Option Nat) (s : RNG) :
    Except RNGError (Int × RNG × List InitEvent) :=
  match rawGen 32 junk fill s with
  | Except.error e => Except.error e
  | Except.ok (v, s2, evs) => Except.ok (absInt32 (toSigned32 v), s2, evs)

/-- `SimpleRandom(int floor, int roof)` (lines 357-362):
`std::uniform_int_distribution<int>(floor, roof)(rng)` on the static
instance.  Unlike the member entry points there is no assert here: the
bounds go straight to the distribution, whose own contract requires only
`floor <= roof`. -/
def SimpleRandom2 (junk : Nat) (fill : Option Nat) (lo hi : Int) (s : RNG) :
    Except RNGError (Int × RNG × List InitEvent) :=
  match rawGen 32 junk fill s with
  | Except.error e => Except.error e
  | Except.ok (v, s2, evs) => Except.ok (distInt lo hi v, s2, evs)

/- ## Interleaved execution model

The lifecycle claims are about concurrent callers racing the destructor,
so the relevant source fragments are embedded a second time as a
small-step transition system over sequentially consistent interleavings.
Each caller thread runs a ranged generation entry point
(`operator()(floor, roof)`, lines 184-204); the destructor thread runs
`~RNGClass` (lines 137-154).  The program points follow the source:

* `IncrementCount` (lines 298-320) is two steps, because the `dying`
  check (line 303) runs before `count_muter` is acquired and the
  destructor holds `destruction_muter`, not `count_muter`, so nothing
  makes check-plus-increment atomic with respect to the destructor:
  `enterCheck` reads `dying`, `enterIncr` increments `pending_count`.
* `innerCall` is the distribution invoking `operator()()` on `*this`
  (line 197): its own `IncrementCount` re-checks `dying`.  On success
  the inner bracket is balanced, the lazy `Initialize` runs if needed
  and a raw value is produced; if `dying` is seen, the inner throw
  propagates out of the ranged entry point, and since the source has no
  guard around line 197, the outer `DecrementCount` (line 200) is
  skipped: the thread exits at `retErrLeak` with the count elevated.
* `exitDecr` is the outer `DecrementCount` (line 200 / lines 324-334).
* `dtorStart` is lines 140-147: `dying = true`, lock
  `destruction_muter`, and `condition.wait(lock, pred)` -- the predicate
  `pending_count == 0` is evaluated once at entry; if false, the thread
  blocks on the condition variable.  A blocked wait re-evaluates the
  predicate only after a notification (`dtorWake`), and the `notified`
  flag is never set by any transition because the source never notifies
  this function-local `condition_variable`.
* `dtorRelease` is lines 150-153: `initialized = false`, then
  `BCryptCloseAlgorithmProvider(this->algorithm_handle, NULL)`.
-/

namespace TS

/-- Program points of a caller thread in a ranged generation call. -/
inductive PC where
  | start
  | checked
  | inDist
  | innerDone
  | retOk
  | retErrNoEnter
  | retErrLeak
deriving DecidableEq

/-- Program points of the destructor. -/
inductive DtorPhase where
  | idle
  | waiting
  | drained
  | done
deriving DecidableEq

/-- Shared state: the RNGClass data members plus the destructor's
position, the (never set) notification flag of its local condition
variable, and whether the provider handle has been released. -/
structure Sys where
  threads : List PC
  pending : Nat
  dying : Bool
  notified : Bool
  dtor : DtorPhase
  initialized : Bool
  released : Bool
deriving DecidableEq

/-- Scheduling labels: which thread takes which step. -/
inductive Label where
  | enterCheck (i : Nat)
  | enterIncr (i : Nat)
  | innerCall (i : Nat)
  | exitDecr (i : Nat)
  | dtorStart
  | dtorWake
  | dtorRelease
deriving DecidableEq

/-- One interleaved step; `none` when the label is not enabled. -/
def stepFn (s : Sys) (l : Label) : Option Sys :=
  match l with
  | Label.enterCheck i =>
    match s.threads[i]? with
    | some PC.start =>
      -- line 303: `if (this->dying) throw ...` -- no lock held here
      if s.dying then some { s with threads := s.threads.set i PC.retErrNoEnter }
      else some { s with threads := s.threads.set i PC.checked }
    | _ => none
  | Label.enterIncr i =>
    match s.threads[i]? with
    | some PC.checked =>
      -- lines 316-319: `pending_count += 1` under `count_muter`
      some { s with threads := s.threads.set i PC.inDist,
                    pending := (s.pending + 1) % W }
    | _ => none
  | Label.innerCall i =>
    match s.threads[i]? with
    | some PC.inDist =>
      if s.dying then
        -- inner IncrementCount throws; no guard in the source, so the
        -- outer DecrementCount of line 200 never runs
        some { s with threads := s.threads.set i PC.retErrLeak }
      else
        -- inner bracket balanced; lazy Initialize marks initialized
        some { s with threads := s.threads.set i PC.innerDone, initialized := true }
    | _ => none
  | Label.exitDecr i =>
    match s.threads[i]? with
    | some PC.innerDone =>
      -- line 200 / lines 324-334: `pending_count -= 1` under `count_muter`
      some { s with threads := s.threads.set i PC.retOk,
                    pending := (s.pending + (W - 1)) % W }
    | _ => none
  | Label.dtorStart =>
    match s.dtor with
    | DtorPhase.idle =>
      -- lines 143-147: `dying = true`, then the wait predicate
      -- `pending_count == 0` is checked once at entry
      if s.pending = 0 then some { s with dying := true, dtor := DtorPhase.drained }
      else some { s with dying := true, dtor := DtorPhase.waiting }
    | _ => none
  | Label.dtorWake =>
    match s.dtor with
    | DtorPhase.waiting =>
      -- a blocked wait re-checks the predicate only after a
      -- notification; no statement of the source ever notifies
      if s.notified then
        (if s.pending = 0 then some { s with dtor := DtorPhase.drained }
         else some { s with dtor := DtorPhase.waiting })
      else none
    | _ => none
  | Label.dtorRelease =>
    match s.dtor with
    | DtorPhase.drained =>
      -- lines 150-153: mark uninitialized, release the handle
      some { s with initialized := false, released := true, dtor := DtorPhase.done }
    | _ => none

/-- Reachability through interleaved steps. -/
inductive Reach : Sys → Sys → Prop where
  | refl (s : Sys) : Reach s s
  | step {s t u : Sys} {l : Label} : Reach s t → stepFn t l = some u → Reach s u

/-- Once the destructor is blocked in the wait and no notification is
pending, any single step leaves it blocked (and cannot release):
`dtorWake` needs `notified`, which nothing sets; `dtorRelease` needs
`drained`; `dtorStart` needs `idle`; thread steps do not touch the
destructor. -/
lemma step_keeps_waiting {s t : Sys} {l : Label}
    (hw : s.dtor = DtorPhase.waiting) (hn : s.notified = false)
    (h : stepFn s l = some t) :
    t.dtor = DtorPhase.waiting ∧ t.notified = false ∧ t.released = s.released := by
  cases l <;> simp only [stepFn] at h <;>
    (repeat' split at h) <;>
    simp_all <;>
    (subst h; exact ⟨rfl, rfl, rfl⟩)

/-- `Reach.step` with every argument explicit, for spelling out
concrete traces. -/
lemma reach_snoc (s t u : Sys) (l : Label) (hr : Reach s t)
    (h : stepFn t l = some u) : Reach s u :=
  Reach.step hr h

/-- `step_keeps_waiting` extended along any reachable future. -/
lemma reach_keeps_waiting {s t : Sys}
    (hw : s.dtor = DtorPhase.waiting) (hn : s.notified = false)
    (h : Reach s t) :
    t.dtor = DtorPhase.waiting ∧ t.notified = false ∧ t.released = s.released := by
  induction h with
  | refl => exact ⟨hw, hn, rfl⟩
  | step hr hstep ih =>
    obtain ⟨h1, h2, h3⟩ := ih
    obtain ⟨g1, g2, g3⟩ := step_keeps_waiting h1 h2 hstep
    exact ⟨g1, g2, g3.trans h3⟩

end TS

/- ## Lemmas about the sequential embedding -/

lemma IncrementCount_ok (s : RNG) (h : s.dying = false) :
    IncrementCount s = Except.ok { s with pending_count := (s.pending_count + 1) % W } := by
  unfold IncrementCount
  simp [h]

lemma rawGen_ok_of_not_dying (w junk : Nat) (fill : Option Nat) (s : RNG)
    (h : s.dying = false) :
    ∃ s2 evs, rawGen w junk fill s = Except.ok (fillVal w junk fill, s2, evs) := by
  unfold rawGen
  rw [IncrementCount_ok s h]
  exact ⟨_, _, rfl⟩

lemma distNat_bounds (lo hi raw : Nat) (h : lo ≤ hi) :
    lo ≤ distNat lo hi raw ∧ distNat lo hi raw ≤ hi := by
  unfold distNat
  have h1 : raw % (hi - lo + 1) < hi - lo + 1 := Nat.mod_lt _ (by omega)
  omega

lemma distInt_bounds (lo hi : Int) (raw : Nat) (h : lo ≤ hi) :
    lo ≤ distInt lo hi raw ∧ distInt lo hi raw ≤ hi := by
  unfold distInt
  have hne : hi - lo + 1 ≠ 0 := by omega
  have h1 : 0 ≤ (raw : Int) % (hi - lo + 1) := Int.emod_nonneg _ hne
  have h2 : (raw : Int) % (hi - lo + 1) < hi - lo + 1 :=
    Int.emod_lt_of_pos _ (by omega)
  omega

lemma distInt_self (lo : Int) (raw : Nat) : distInt lo lo raw = lo := by
  unfold distInt
  simp

/- ## Claim theorems -/

/-- Claim C3: a generation call (the raw `operator()()`, lines 161-179)
entered while `dying` is false never raises the shutdown error and
completes with a value, and every generation call entered after `dying`
has been set raises the shutdown error instead of proceeding;
equivalently, `IncrementCount` errors exactly when `dying` holds. -/
theorem generate_errors_iff_dying (w junk : Nat) (fill : Option Nat) (s : RNG) :
    (s.dying = true → rawGen w junk fill s = Except.error RNGError.shutdown) ∧
    (s.dying = false → ∃ out, rawGen w junk fill s = Except.ok out) ∧
    (IncrementCount s = Except.error RNGError.shutdown ↔ s.dying = true) := by
  refine ⟨?_, ?_, ?_⟩
  · intro h
    unfold rawGen IncrementCount
    simp [h]
  · intro h
    obtain ⟨s2, evs, heq⟩ := rawGen_ok_of_not_dying w junk fill s h
    exact ⟨_, heq⟩
  · unfold IncrementCount
    cases hs : s.dying <;> simp [hs]

/-- Witness for C3 at concrete states: a live generator succeeds, a
dying one raises the shutdown error. -/
theorem generate_errors_iff_dying_wit :
    rawGen 8 0 (some 7) ⟨false, true, 0⟩ = Except.error RNGError.shutdown ∧
    (∃ out, rawGen 8 0 (some 7) ⟨false, false, 0⟩ = Except.ok out) :=
  ⟨(generate_errors_iff_dying 8 0 (some 7) ⟨false, true, 0⟩).1 rfl,
   (generate_errors_iff_dying 8 0 (some 7) ⟨false, false, 0⟩).2.1 rfl⟩

/-- Claim C5 (refuted, code bug): `operator()()` discards the
`NTSTATUS` of `BCryptGenRandom` (line 172).  When the provider fails
(`fill = none`) the call does not surface any error: it returns
`Except.ok` carrying whatever uninitialized stack contents the local
`number` held (42 in the first run, 7 in the second), i.e. a stale
non-random value, contradicting the claim that a provider failure is
surfaced to the caller. -/
theorem generate_swallows_provider_failure :
    rawGen 32 42 none ⟨false, false, 0⟩ =
      Except.ok (42, ⟨true, false, 0⟩, [InitEvent.openCall, InitEvent.setInitialized]) ∧
    rawGen 32 7 none ⟨false, false, 0⟩ =
      Except.ok (7, ⟨true, false, 0⟩, [InitEvent.openCall, InitEvent.setInitialized]) :=
  ⟨rfl, rfl⟩

/-- Claim C6: for `lo < hi`, the ranged operations `operator()(floor,
roof)` (lines 184-204) and `CustomRand<U>` (lines 243-266) -- also with
the omitted-bounds defaults, which are the full domain of the cast type
(line 243) -- return a value `v` with `lo ≤ v ≤ hi`, inclusive on both
ends. -/
theorem ranged_results_within_bounds (w junk : Nat) (fill : Option Nat) (s : RNG)
    (hdy : s.dying = false) :
    (∀ lo hi : Nat, lo < hi → ∃ v s2 evs,
      opRange w junk fill lo hi s = Except.ok (v, s2, evs) ∧ lo ≤ v ∧ v ≤ hi) ∧
    (∀ lo hi : Int, lo < hi → ∃ v s2 evs,
      CustomRand w junk fill lo hi s = Except.ok (v, s2, evs) ∧ lo ≤ v ∧ v ≤ hi) ∧
    (∀ uMin uMax : Int, uMin < uMax → ∃ v s2 evs,
      CustomRandDefault uMin uMax w junk fill s = Except.ok (v, s2, evs) ∧
        uMin ≤ v ∧ v ≤ uMax) := by
  have hinc := IncrementCount_ok s hdy
  have hdy1 : ({ s with pending_count := (s.pending_count + 1) % W } : RNG).dying = false := hdy
  obtain ⟨s2, evs, hraw⟩ := rawGen_ok_of_not_dying w junk fill _ hdy1
  have hcustom : ∀ lo hi : Int, lo < hi → ∃ v s3 evs2,
      CustomRand w junk fill lo hi s = Except.ok (v, s3, evs2) ∧ lo ≤ v ∧ v ≤ hi := by
    intro lo hi hlt
    refine ⟨distInt lo hi (fillVal w junk fill), DecrementCount s2, evs, ?_,
      (distInt_bounds lo hi _ (le_of_lt hlt)).1, (distInt_bounds lo hi _ (le_of_lt hlt)).2⟩
    simp only [CustomRand, if_pos hlt, hinc, hraw]
  refine ⟨?_, hcustom, ?_⟩
  · intro lo hi hlt
    refine ⟨distNat lo hi (fillVal w junk fill), DecrementCount s2, evs, ?_,
      (distNat_bounds lo hi _ (le_of_lt hlt)).1, (distNat_bounds lo hi _ (le_of_lt hlt)).2⟩
    simp only [opRange, if_pos hlt, hinc, hraw]
  · intro uMin uMax hlt
    exact hcustom uMin uMax hlt

/-- Witness for C6 at concrete inputs, one per conjunct. -/
theorem ranged_results_within_bounds_wit :
    (∃ v s2 evs, opRange 8 0 (some 7) 2 5 ⟨false, false, 0⟩ =
        Except.ok (v, s2, evs) ∧ 2 ≤ v ∧ v ≤ 5) ∧
    (∃ v s2 evs, CustomRand 8 0 (some 7) (-3) 3 ⟨false, false, 0⟩ =
        Except.ok (v, s2, evs) ∧ -3 ≤ v ∧ v ≤ 3) ∧
    (∃ v s2 evs, CustomRandDefault (-128) 127 8 0 (some 7) ⟨false, false, 0⟩ =
        Except.ok (v, s2, evs) ∧ -128 ≤ v ∧ v ≤ 127) :=
  ⟨(ranged_results_within_bounds 8 0 (some 7) ⟨false, false, 0⟩ rfl).1 2 5 (by omega),
   (ranged_results_within_bounds 8 0 (some 7) ⟨false, false, 0⟩ rfl).2.1 (-3) 3 (by omega),
   (ranged_results_within_bounds 8 0 (some 7) ⟨false, false, 0⟩ rfl).2.2 (-128) 127 (by omega)⟩

/-- Claim C7: violating the `lo < hi` precondition trips the
`assert(floor < roof)` of the ranged operations (lines 190, 252): the
call is rejected (modelled as the `assertFail` outcome) rather than
returning a value.  In particular `(5, 5)` is rejected, see the
witness. -/
theorem range_violation_rejected (w junk : Nat) (fill : Option Nat) (s : RNG)
    (lo hi : Nat) (flo fhi : Int) (h1 : ¬ lo < hi) (h2 : ¬ flo < fhi) :
    opRange w junk fill lo hi s = Except.error RNGError.assertFail ∧
    CustomRand w junk fill flo fhi s = Except.error RNGError.assertFail := by
  constructor
  · unfold opRange
    rw [if_neg h1]
  · unfold CustomRand
    rw [if_neg h2]

/-- Witness for C7 at the boundary input `(5, 5)` named by the spec. -/
theorem range_violation_rejected_wit :
    opRange 8 0 none 5 5 ⟨false, false, 0⟩ = Except.error RNGError.assertFail ∧
    CustomRand 8 0 none 5 5 ⟨false, false, 0⟩ = Except.error RNGError.assertFail :=
  range_violation_rejected 8 0 none ⟨false, false, 0⟩ 5 5 5 5 (by omega) (by omega)

/-- Claim C8 (refuted, code bug): `Initialize(true)` on an initialized
generator performs, in order, `initialized = false`, one close call, one
open call, `initialized = true` -- but the close call's argument is
`&this->algorithm_handle`, the address of the member (line 217), not the
handle value that `BCryptCloseAlgorithmProvider` takes and that the
destructor correctly passes (line 153): the existing handle is never
actually closed.  The `force_reinit = false` halves of the claim hold: a
second call is a no-op, so two successive calls perform exactly one
handle acquisition. -/
theorem reinit_closes_wrong_argument :
    Initialize true ⟨true, false, 0⟩ =
      (⟨true, false, 0⟩, [InitEvent.setUninitialized,
        InitEvent.closeCall CloseArg.handleAddress, InitEvent.openCall,
        InitEvent.setInitialized]) ∧
    CloseArg.handleAddress ≠ CloseArg.handleValue ∧
    Initialize false ⟨true, false, 0⟩ = (⟨true, false, 0⟩, []) ∧
    Initialize false ⟨false, false, 0⟩ =
      (⟨true, false, 0⟩, [InitEvent.openCall, InitEvent.setInitialized]) :=
  ⟨rfl, by decide, rfl, rfl⟩

/-- Claim C9 (refuted, code bug): `SimpleRandom()` computes
`std::abs((int)rng())` (line 352).  The raw draw `2^31 = 0x80000000`
reinterprets to `INT_MIN`, whose absolute value overflows (undefined
behaviour; two's-complement wraparound evaluation yields `INT_MIN`
back), so the call returns `-2^31 < 0` -- a negative result,
contradicting both the claim and the header's own documented range
`0 ≤ RETURN ≤ INT_MAX` (line 7). -/
theorem simpleRandom_negative_at_most_negative :
    SimpleRandom1 0 (some (2 ^ 31)) ⟨false, false, 0⟩ =
      Except.ok (-(2 ^ 31 : Int), ⟨true, false, 0⟩,
        [InitEvent.openCall, InitEvent.setInitialized]) ∧
    (-(2 ^ 31 : Int) < 0) := by
  constructor
  · rfl
  · decide

/-- Claim C10: the two-argument `SimpleRandom(floor, roof)`
(lines 357-362) has no assert of its own: for every `floor ≤ roof` it
returns a value in the inclusive range, and at the boundary
`floor == roof` it accepts the call and returns `floor`. -/
theorem simpleRandom_range_accepts_equal_bounds (junk : Nat) (fill : Option Nat)
    (s : RNG) (lo hi : Int) (hle : lo ≤ hi) (hdy : s.dying = false) :
    ∃ v s2 evs, SimpleRandom2 junk fill lo hi s = Except.ok (v, s2, evs) ∧
      lo ≤ v ∧ v ≤ hi ∧ (lo = hi → v = lo) := by
  obtain ⟨s2, evs, hraw⟩ := rawGen_ok_of_not_dying 32 junk fill s hdy
  refine ⟨distInt lo hi (fillVal 32 junk fill), s2, evs, ?_,
    (distInt_bounds lo hi _ hle).1, (distInt_bounds lo hi _ hle).2, ?_⟩
  · simp only [SimpleRandom2, hraw]
  · intro h
    subst h
    exact distInt_self lo _

/-- Witness for C10 at the boundary input `(5, 5)`. -/
theorem simpleRandom_range_accepts_equal_bounds_wit :
    ∃ v s2 evs, SimpleRandom2 0 (some 7) 5 5 ⟨false, false, 0⟩ =
      Except.ok (v, s2, evs) ∧ 5 ≤ v ∧ v ≤ 5 ∧ ((5 : Int) = 5 → v = 5) :=
  simpleRandom_range_accepts_equal_bounds 0 (some 7) ⟨false, false, 0⟩ 5 5 (by omega) rfl

namespace TS

/-- Claim C1 (refuted, code bug): the `dying` check of `IncrementCount`
(line 303) is not atomic with the `pending_count` increment
(lines 316-319), and the destructor's wait predicate reads
`pending_count` under `destruction_muter` only (line 147), so the
destructor can run to completion inside that window.  Concrete
interleaving: the caller passes the `dying` check (`enterCheck`), the
destructor then starts, sees `pending_count == 0`, and releases the
handle (`dtorRelease`) while the caller's generation call is in progress
(program point `checked`); the caller then resumes and increments the
count against the destroyed generator.  The release-moment clause of the
claim (`dying == true` and `pending_count == 0` at release) does hold in
this trace, but the handle is released while a generation call is in
progress. -/
theorem handle_released_during_inflight_call :
    stepFn ⟨[PC.start], 0, false, false, DtorPhase.idle, false, false⟩
        (Label.enterCheck 0) =
      some ⟨[PC.checked], 0, false, false, DtorPhase.idle, false, false⟩ ∧
    stepFn ⟨[PC.checked], 0, false, false, DtorPhase.idle, false, false⟩
        Label.dtorStart =
      some ⟨[PC.checked], 0, true, false, DtorPhase.drained, false, false⟩ ∧
    stepFn ⟨[PC.checked], 0, true, false, DtorPhase.drained, false, false⟩
        Label.dtorRelease =
      some ⟨[PC.checked], 0, true, false, DtorPhase.done, false, true⟩ ∧
    stepFn ⟨[PC.checked], 0, true, false, DtorPhase.done, false, true⟩
        (Label.enterIncr 0) =
      some ⟨[PC.inDist], 1, true, false, DtorPhase.done, false, true⟩ :=
  ⟨rfl, rfl, rfl, rfl⟩

/-- Claim C2 (refuted, code bug): a ranged call whose outer
`IncrementCount` succeeded can still exit by a thrown error -- the
destructor sets `dying` before the distribution invokes the inner
`operator()()` (line 197), whose `IncrementCount` then throws -- and
because the source has no guard around line 197, the outer
`DecrementCount` (line 200) never runs: the call exits with
`pending_count = 1` although it was 0 before the call, leaking the
count. -/
theorem ranged_error_exit_leaks_pending :
    stepFn ⟨[PC.start], 0, false, false, DtorPhase.idle, false, false⟩
        (Label.enterCheck 0) =
      some ⟨[PC.checked], 0, false, false, DtorPhase.idle, false, false⟩ ∧
    stepFn ⟨[PC.checked], 0, false, false, DtorPhase.idle, false, false⟩
        (Label.enterIncr 0) =
      some ⟨[PC.inDist], 1, false, false, DtorPhase.idle, false, false⟩ ∧
    stepFn ⟨[PC.inDist], 1, false, false, DtorPhase.idle, false, false⟩
        Label.dtorStart =
      some ⟨[PC.inDist], 1, true, false, DtorPhase.waiting, false, false⟩ ∧
    stepFn ⟨[PC.inDist], 1, true, false, DtorPhase.waiting, false, false⟩
        (Label.innerCall 0) =
      some ⟨[PC.retErrLeak], 1, true, false, DtorPhase.waiting, false, false⟩ :=
  ⟨rfl, rfl, rfl, rfl⟩

/-- Claim C4 (refuted, code bug): `DecrementCount` (lines 324-334) does
decrement the count under the lock, but it performs no notification, and
the `condition_variable` the destructor waits on is local to the
destructor body (line 140), so nothing can ever notify it; a blocked
wait re-evaluates its predicate only upon wakeup.  Concrete trace: one
caller is mid-generation, the destructor starts and blocks
(`pending_count == 1`), the caller then exits, bringing the count to 0
-- and from that state every reachable future still has the destructor
blocked in the wait and the handle never released. -/
theorem teardown_wait_never_completes :
    Reach ⟨[PC.start], 0, false, false, DtorPhase.idle, false, false⟩
      ⟨[PC.retOk], 0, true, false, DtorPhase.waiting, true, false⟩ ∧
    DecrementCount ⟨true, true, 1⟩ = ⟨true, true, 0⟩ ∧
    (∀ t, Reach ⟨[PC.retOk], 0, true, false, DtorPhase.waiting, true, false⟩ t →
      t.dtor = DtorPhase.waiting ∧ t.released = false) := by
  refine ⟨?_, rfl, ?_⟩
  · exact
      reach_snoc _ ⟨[PC.innerDone], 1, true, false, DtorPhase.waiting, true, false⟩ _
        (Label.exitDecr 0)
        (reach_snoc _ ⟨[PC.innerDone], 1, false, false, DtorPhase.idle, true, false⟩ _
          Label.dtorStart
          (reach_snoc _ ⟨[PC.inDist], 1, false, false, DtorPhase.idle, false, false⟩ _
            (Label.innerCall 0)
            (reach_snoc _ ⟨[PC.checked], 0, false, false, DtorPhase.idle, false, false⟩ _
              (Label.enterIncr 0)
              (reach_snoc _ ⟨[PC.start], 0, false, false, DtorPhase.idle, false, false⟩ _
                (Label.enterCheck 0) (Reach.refl _) rfl) rfl) rfl) rfl) rfl
  · intro t h
    exact ⟨(reach_keeps_waiting rfl rfl h).1, (reach_keeps_waiting rfl rfl h).2.2⟩

/-- Witness for C4, applying the theorem at the stuck state itself. -/
theorem teardown_wait_never_completes_wit :
    (⟨[PC.retOk], 0, true, false, DtorPhase.waiting, true, false⟩ : Sys).dtor =
        DtorPhase.waiting ∧
    (⟨[PC.retOk], 0, true, false, DtorPhase.waiting, true, false⟩ : Sys).released = false :=
  teardown_wait_never_completes.2.2 _ (Reach.refl _)

end TS

end RNGSpec
